import Mathlib

/-!
# Substratekitties — verification of the kitty registry and lifecycle engine

Shallow embedding of `src/runtime/src/substratekitties.rs`. The module
storage (`decl_storage`) becomes an explicit `State` record; each
dispatchable (`create_kitty`, `set_price`, `transfer`, `buy_kitty`,
`breed_kitty`) and each helper (`_mint`, `_transfer_from`) becomes a
function from `State` to a `RunResult` that carries the post-state, so that
the state at the moment of an error is observable. Machine integers
(`u64`, hashes as byte strings, balances) are modelled as `Nat` with
explicit bounds: `checked_add` / `checked_sub` return `Option`, and the
unchecked `u64` additions (`gen + 1`, the nonce bump) reduce modulo
`2 ^ 64`, which is the release-build overflow behaviour the runtime is
compiled with. The balances module is external to the repository and is
modelled from the spec.
-/

/-- Account identifiers (`T::AccountId`), abstracted to naturals. -/
abbrev AccountId := Nat

/-- Hash values (`T::Hash`), modelled as their byte strings. -/
abbrev KHash := List Nat

/-- Balances (`T::Balance`), an unsigned amount. -/
abbrev Balance := Nat

/-- Largest value of a `u64`. -/
def u64max : Nat := 2 ^ 64 - 1

/-- Reduction modulo `2 ^ 64`: the wrapping behaviour of unchecked `u64`
addition in a release build. -/
def wrap64 (n : Nat) : Nat := n % 2 ^ 64

/-- `u64::checked_add` on values below `2 ^ 64`. -/
def checkedAdd (a b : Nat) : Option Nat :=
  if a + b ≤ u64max then some (a + b) else none

/-- `u64::checked_sub`. -/
def checkedSub (a b : Nat) : Option Nat :=
  if b ≤ a then some (a - b) else none

/-- The `Kitty<Hash, Balance>` struct of the source. -/
structure Kitty where
  id : KHash
  dna : KHash
  price : Balance
  gen : Nat
deriving DecidableEq

/-- `Default` instance used by storage reads of absent keys. -/
def defaultKitty : Kitty := { id := [], dna := [], price := 0, gen := 0 }

/-- Default hash returned by a storage read of an absent key. -/
def defaultKHash : KHash := []

/-- Point update of a map modelled as a function. -/
def mupd {α β : Type} [DecidableEq α] (m : α → β) (k : α) (v : β) : α → β :=
  fun x => if x = k then v else m x

/-- The module storage of `decl_storage!` (nine mappings plus the nonce),
together with the external balances ledger. Maps that the source only
ever inserts into are total functions whose reads use the default value
`0`; maps with an `Option` value type or a `remove` call are
`Option`-valued. -/
structure State where
  kitties : KHash → Option Kitty
  kittyOwner : KHash → Option AccountId
  allKittiesArray : Nat → Option KHash
  allKittiesCount : Nat
  allKittiesIndex : KHash → Nat
  ownedKittiesArray : AccountId × Nat → Option KHash
  ownedKittiesCount : AccountId → Nat
  ownedKittiesIndex : KHash → Nat
  nonce : Nat
  balances : AccountId → Balance

/-- Result of a dispatchable: `Ok` or an error message, in both cases
carrying the storage state at the point the function returned. -/
inductive RunResult where
  | ok (s : State)
  | err (msg : String) (s : State)

/-- Whether a run succeeded. -/
def RunResult.isOk : RunResult → Bool
  | .ok _ => true
  | .err _ _ => false

/-- The post-state of a run. -/
def RunResult.state : RunResult → State
  | .ok s => s
  | .err _ s => s

/-- `Module::_mint` (lines 257-307): checks the identifier is fresh,
checks both counter increments, then performs the eight storage writes. -/
def mint (s : State) (dst : AccountId) (kitty_id : KHash) (new_kitty : Kitty) :
    RunResult :=
  if (s.kittyOwner kitty_id).isSome then
    .err "Error: the kitty coressponding to this ID already exit!" s
  else
    let owned_kitty_count := s.ownedKittiesCount dst
    match checkedAdd owned_kitty_count 1 with
    | none =>
      .err "Error: Overflow happed when trying to register a new kitty in your account balance" s
    | some new_owned_kitty_count =>
      let all_kitties_count := s.allKittiesCount
      match checkedAdd all_kitties_count 1 with
      | none => .err "Error: Overflow happened when trying to register a new kitty" s
      | some new_all_kitties_count =>
        .ok { s with
          kitties := mupd s.kitties kitty_id (some new_kitty)
          kittyOwner := mupd s.kittyOwner kitty_id (some dst)
          allKittiesArray := mupd s.allKittiesArray all_kitties_count (some kitty_id)
          allKittiesCount := new_all_kitties_count
          allKittiesIndex := mupd s.allKittiesIndex kitty_id all_kitties_count
          ownedKittiesArray :=
            mupd s.ownedKittiesArray (dst, owned_kitty_count) (some kitty_id)
          ownedKittiesCount := mupd s.ownedKittiesCount dst new_owned_kitty_count
          ownedKittiesIndex := mupd s.ownedKittiesIndex kitty_id owned_kitty_count }

/-- `Module::_transfer_from` (lines 310-366): ownership check, both
counter checks, then the swap-and-pop writes in source order. -/
def transfer_from (s : State) (frm dst : AccountId) (kitty_id : KHash) :
    RunResult :=
  match s.kittyOwner kitty_id with
  | none => .err "Error: there is no owner for this kitty" s
  | some owner =>
    if owner ≠ frm then
      .err "Error: `from` account have no ownership for this kitty" s
    else
      let owned_kitty_count_from := s.ownedKittiesCount frm
      let owned_kitty_count_to := s.ownedKittiesCount dst
      match checkedAdd owned_kitty_count_to 1 with
      | none =>
        .err "Error: happend overflow of `to` kitty balance while executing transfer method" s
      | some new_owned_kitty_count_to =>
        match checkedSub owned_kitty_count_from 1 with
        | none =>
          .err "Error: happend underflow of `from` kitty balance while executing transfer method" s
        | some new_owned_kitty_count_from =>
          let kitty_index := s.ownedKittiesIndex kitty_id
          let s1 :=
            if kitty_index ≠ new_owned_kitty_count_from then
              let last_kitty_id :=
                (s.ownedKittiesArray (frm, new_owned_kitty_count_from)).getD defaultKHash
              { s with
                ownedKittiesArray :=
                  mupd s.ownedKittiesArray (frm, kitty_index) (some last_kitty_id)
                ownedKittiesIndex :=
                  mupd s.ownedKittiesIndex last_kitty_id kitty_index }
            else s
          .ok { s1 with
            kittyOwner := mupd s1.kittyOwner kitty_id (some dst)
            ownedKittiesIndex :=
              mupd s1.ownedKittiesIndex kitty_id owned_kitty_count_to
            ownedKittiesArray :=
              mupd (mupd s1.ownedKittiesArray (frm, new_owned_kitty_count_from) none)
                (dst, owned_kitty_count_to) (some kitty_id)
            ownedKittiesCount :=
              mupd (mupd s1.ownedKittiesCount frm new_owned_kitty_count_from)
                dst new_owned_kitty_count_to }

/-- `create_kitty` (lines 90-123). The random hash derived from
`(random_seed, sender, nonce)` by the external hashing collaborator is a
parameter. On success the nonce is bumped by an unchecked `u64` add. -/
def create_kitty (s : State) (sender : AccountId) (random_hash : KHash) :
    RunResult :=
  if (s.kittyOwner random_hash).isSome then
    .err "the kitty coressponding to this ID already exit!" s
  else
    let new_kitty : Kitty :=
      { id := random_hash, dna := random_hash, price := 0, gen := 0 }
    match mint s sender random_hash new_kitty with
    | .err m s1 => .err m s1
    | .ok s1 => .ok { s1 with nonce := wrap64 (s1.nonce + 1) }

/-- `set_price` (lines 126-147). -/
def set_price (s : State) (sender : AccountId) (kitty_id : KHash)
    (new_price : Balance) : RunResult :=
  if (s.kitties kitty_id).isNone then
    .err "Error: invalid kitty id: this kitty does not exist" s
  else
    match s.kittyOwner kitty_id with
    | none => .err "Error: there is no owner for this kitty" s
    | some owner =>
      if owner ≠ sender then
        .err "Error: you have no ownership to this kitty" s
      else
        let kitty := (s.kitties kitty_id).getD defaultKitty
        .ok { s with
          kitties := mupd s.kitties kitty_id (some { kitty with price := new_price }) }

/-- `transfer` (lines 150-163). -/
def transfer (s : State) (sender dst : AccountId) (kitty_id : KHash) :
    RunResult :=
  match s.kittyOwner kitty_id with
  | none => .err "Error: there is no owner for this kitty" s
  | some owner =>
    if owner ≠ sender then
      .err "Error: you have no ownership for this kitty" s
    else
      transfer_from s sender dst kitty_id

/-- Modelled from the spec: `balances::make_transfer`, the currency
collaborator of §6, is not part of this repository. Per the spec it
atomically moves `amount` from payer to payee or fails with a ledger
error and no movement. -/
def make_transfer (s : State) (payer payee : AccountId) (amount : Balance) :
    RunResult :=
  if s.balances payer < amount then
    .err "Error: insufficient funds" s
  else
    .ok { s with
      balances := fun a =>
        if a = payer then s.balances payer - amount
        else if a = payee then s.balances payee + amount
        else s.balances a }

/-- `buy_kitty` (lines 166-203): existence, owner, self-purchase,
for-sale and price checks, then payment, then `_transfer_from`, then the
price reset to `0`. -/
def buy_kitty (s : State) (sender : AccountId) (kitty_id : KHash)
    (max_price : Balance) : RunResult :=
  if (s.kitties kitty_id).isNone then
    .err "Error: invalid kitty id: this kitty does not exist" s
  else
    match s.kittyOwner kitty_id with
    | none => .err "Error: there is no owner for this kitty" s
    | some owner =>
      if owner = sender then
        .err "Error: you can not buy your own kitty" s
      else
        let kitty := (s.kitties kitty_id).getD defaultKitty
        let kitty_price := kitty.price
        if kitty_price = 0 then
          .err "Error: this kitty you want to buy is not for sale" s
        else if ¬ kitty_price ≤ max_price then
          .err "Error: this kitty you want to buy costs more than your max price" s
        else
          match make_transfer s sender owner kitty_price with
          | .err m s1 => .err m s1
          | .ok s1 =>
            match transfer_from s1 owner sender kitty_id with
            | .err m s2 => .err m s2
            | .ok s2 =>
              .ok { s2 with
                kitties :=
                  mupd s2.kitties kitty_id (some { kitty with price := 0 }) }

/-- The DNA-mixing loop of `breed_kitty` (lines 225-232): start from the
first DNA and replace position `i` by the second DNA byte whenever the
random byte at `i` is even. -/
def mixDna : List Nat → List Nat → List Nat → List Nat
  | b1 :: t1, b2 :: t2, r :: tr =>
    (if r % 2 = 0 then b2 else b1) :: mixDna t1 t2 tr
  | d1, _, _ => d1

/-- `breed_kitty` (lines 206-250). The fresh random hash is a parameter;
the child generation uses the unchecked `u64` add of the source. -/
def breed_kitty (s : State) (sender : AccountId) (kitty_id_1 kitty_id_2 : KHash)
    (random_hash : KHash) : RunResult :=
  if (s.kitties kitty_id_1).isNone then
    .err "Error: this cat 1 does not exist" s
  else if (s.kitties kitty_id_2).isNone then
    .err "Error: this cat 2 does not exist" s
  else
    let kitty_1 := (s.kitties kitty_id_1).getD defaultKitty
    let kitty_2 := (s.kitties kitty_id_2).getD defaultKitty
    let final_dna := mixDna kitty_1.dna kitty_2.dna random_hash
    let new_kitty : Kitty :=
      { id := random_hash, dna := final_dna, price := 0
        gen := wrap64 (max kitty_1.gen kitty_2.gen + 1) }
    match mint s sender random_hash new_kitty with
    | .err m s1 => .err m s1
    | .ok s1 => .ok { s1 with nonce := wrap64 (s1.nonce + 1) }

/-! ## Concrete states used as witnesses and failing inputs -/

/-- A concrete kitty identifier. -/
def t0 : KHash := [1]

/-- The kitty stored at `t0` in the one-kitty state. -/
def k0 : Kitty := { id := [1], dna := [1], price := 0, gen := 0 }

/-- A well-formed state in which account `0` owns exactly the kitty `t0`,
at per-owner index `0`. -/
def s0 : State where
  kitties := fun h => if h = t0 then some k0 else none
  kittyOwner := fun h => if h = t0 then some 0 else none
  allKittiesArray := fun i => if i = 0 then some t0 else none
  allKittiesCount := 1
  allKittiesIndex := fun _ => 0
  ownedKittiesArray := fun p => if p = (0, 0) then some t0 else none
  ownedKittiesCount := fun a => if a = 0 then 1 else 0
  ownedKittiesIndex := fun _ => 0
  nonce := 0
  balances := fun _ => 1000

/-! ## C1 and C3: the self-transfer slip -/

/-- Claim C1 (code bug exhibit): from the well-formed one-kitty state,
the self-transfer `transfer(0, 0, t0)` succeeds and leaves
`KittyOwner[t0] == 0`, but `OwnedKittiesCount[0]` moves from `1` to `2`
instead of staying unchanged: both count writes of `_transfer_from` use
counts read before either write, and the increment is written last. -/
theorem self_transfer_changes_count :
    s0.ownedKittiesCount 0 = 1 ∧
    (transfer s0 0 0 t0).isOk = true ∧
    (transfer s0 0 0 t0).state.kittyOwner t0 = some 0 ∧
    (transfer s0 0 0 t0).state.ownedKittiesCount 0 = 2 := by
  refine ⟨rfl, rfl, rfl, rfl⟩

/-- Claim C3 (code bug exhibit): the same successful self-transfer
breaks the per-owner list invariant: afterwards
`OwnedKittiesCount[0] = 2` although account `0` still owns exactly the
one kitty `t0`, and index `0 < 2` maps to no token (a gap). -/
theorem self_transfer_breaks_invariant :
    s0.ownedKittiesArray (0, 0) = some t0 ∧
    (transfer s0 0 0 t0).isOk = true ∧
    (transfer s0 0 0 t0).state.ownedKittiesCount 0 = 2 ∧
    (transfer s0 0 0 t0).state.ownedKittiesArray (0, 0) = none ∧
    (transfer s0 0 0 t0).state.ownedKittiesArray (0, 1) = some t0 := by
  refine ⟨rfl, rfl, rfl, rfl, rfl⟩


/-! ## C2: failed operations leave the module storage untouched -/

/-- Equality of the nine module storage items (the balances ledger is an
external collaborator and is not part of the module storage). -/
def registryEq (s s2 : State) : Prop :=
  s2.kitties = s.kitties ∧ s2.kittyOwner = s.kittyOwner ∧
  s2.allKittiesArray = s.allKittiesArray ∧
  s2.allKittiesCount = s.allKittiesCount ∧
  s2.allKittiesIndex = s.allKittiesIndex ∧
  s2.ownedKittiesArray = s.ownedKittiesArray ∧
  s2.ownedKittiesCount = s.ownedKittiesCount ∧
  s2.ownedKittiesIndex = s.ownedKittiesIndex ∧
  s2.nonce = s.nonce

theorem registryEq_refl (s : State) : registryEq s s :=
  ⟨rfl, rfl, rfl, rfl, rfl, rfl, rfl, rfl, rfl⟩

theorem registryEq_of_eq {s s2 : State} (h : s2 = s) : registryEq s s2 :=
  h ▸ registryEq_refl s

theorem registryEq_of_eq_of {s s1 s2 : State} (h : s2 = s1)
    (h1 : registryEq s s1) : registryEq s s2 :=
  h ▸ h1

/-- Every error return of `_mint` happens before its first write. -/
theorem mint_err_state {s s2 : State} {dst : AccountId} {kid : KHash}
    {k : Kitty} {m : String} (h : mint s dst kid k = RunResult.err m s2) :
    s2 = s := by
  simp only [mint] at h
  split at h
  · simp_all
  · split at h
    · simp_all
    · split at h
      · simp_all
      · simp_all

/-- Every error return of `_transfer_from` happens before its first write. -/
theorem transfer_from_err_state {s s2 : State} {frm dst : AccountId}
    {kid : KHash} {m : String}
    (h : transfer_from s frm dst kid = RunResult.err m s2) : s2 = s := by
  simp only [transfer_from] at h
  split at h
  · simp_all
  · split at h
    · simp_all
    · split at h
      · simp_all
      · split at h
        · simp_all
        · simp_all

/-- A failing currency transfer moves no funds and changes nothing. -/
theorem make_transfer_err_state {s s2 : State} {p q : AccountId}
    {a : Balance} {m : String}
    (h : make_transfer s p q a = RunResult.err m s2) : s2 = s := by
  simp only [make_transfer] at h
  split at h
  · simp_all
  · simp_all

/-- A successful currency transfer only moves funds: the module storage
is untouched. -/
theorem make_transfer_ok_registry {s s2 : State} {p q : AccountId}
    {a : Balance} (h : make_transfer s p q a = RunResult.ok s2) :
    registryEq s s2 := by
  simp only [make_transfer] at h
  split at h
  · simp_all
  · cases h
    exact ⟨rfl, rfl, rfl, rfl, rfl, rfl, rfl, rfl, rfl⟩

/-- A failing `create_kitty` returns the state unchanged. -/
theorem create_kitty_err_state {s s2 : State} {sender : AccountId}
    {rh : KHash} {m : String}
    (h : create_kitty s sender rh = RunResult.err m s2) : s2 = s := by
  simp only [create_kitty] at h
  split at h
  · simp_all
  · split at h
    · rename_i m1 s1 heq
      rw [mint_err_state heq] at h
      simp_all
    · simp_all

/-- A failing `set_price` returns the state unchanged. -/
theorem set_price_err_state {s s2 : State} {sender : AccountId}
    {kid : KHash} {p : Balance} {m : String}
    (h : set_price s sender kid p = RunResult.err m s2) : s2 = s := by
  simp only [set_price] at h
  split at h
  · simp_all
  · split at h
    · simp_all
    · split at h
      · simp_all
      · simp_all

/-- A failing `transfer` returns the state unchanged. -/
theorem transfer_err_state {s s2 : State} {sender dst : AccountId}
    {kid : KHash} {m : String}
    (h : transfer s sender dst kid = RunResult.err m s2) : s2 = s := by
  simp only [transfer] at h
  split at h
  · simp_all
  · split at h
    · simp_all
    · exact transfer_from_err_state h

/-- A failing `breed_kitty` returns the state unchanged. -/
theorem breed_kitty_err_state {s s2 : State} {sender : AccountId}
    {id1 id2 rh : KHash} {m : String}
    (h : breed_kitty s sender id1 id2 rh = RunResult.err m s2) : s2 = s := by
  simp only [breed_kitty] at h
  split at h
  · simp_all
  · split at h
    · simp_all
    · split at h
      · rename_i m1 s1 heq
        rw [mint_err_state heq] at h
        simp_all
      · simp_all

/-- A failing `buy_kitty` leaves the nine module storage items unchanged
(the ledger may already have moved funds when the registry half fails,
but the registry itself is untouched). -/
theorem buy_kitty_err_registry {s s2 : State} {sender : AccountId}
    {kid : KHash} {mx : Balance} {m : String}
    (h : buy_kitty s sender kid mx = RunResult.err m s2) : registryEq s s2 := by
  simp only [buy_kitty] at h
  split at h
  · exact registryEq_of_eq (by simp_all)
  · split at h
    · exact registryEq_of_eq (by simp_all)
    · split at h
      · exact registryEq_of_eq (by simp_all)
      · split at h
        · exact registryEq_of_eq (by simp_all)
        · split at h
          · exact registryEq_of_eq (by simp_all)
          · split at h
            · rename_i m1 s1 heq
              rw [make_transfer_err_state heq] at h
              exact registryEq_of_eq (by simp_all)
            · rename_i s1 heq
              split at h
              · rename_i m2 s3 heq2
                rw [transfer_from_err_state heq2] at h
                exact registryEq_of_eq_of (by simp_all)
                  (make_transfer_ok_registry heq)
              · simp_all

/-- Claim C2: for every public operation and every input on which it
returns an error of any kind, all nine module storage items (Kitties,
KittyOwner, AllKittiesArray, AllKittiesCount, AllKittiesIndex,
OwnedKittiesArray, OwnedKittiesCount, OwnedKittiesIndex, Nonce) are
identical after the failed call to their values before it. -/
theorem failed_operations_preserve_storage
    (s : State) (sender dst : AccountId) (rh kid id1 id2 : KHash)
    (p mx : Balance) :
    (∀ m s2, create_kitty s sender rh = RunResult.err m s2 → registryEq s s2) ∧
    (∀ m s2, set_price s sender kid p = RunResult.err m s2 → registryEq s s2) ∧
    (∀ m s2, transfer s sender dst kid = RunResult.err m s2 → registryEq s s2) ∧
    (∀ m s2, buy_kitty s sender kid mx = RunResult.err m s2 → registryEq s s2) ∧
    (∀ m s2, breed_kitty s sender id1 id2 rh = RunResult.err m s2 →
      registryEq s s2) := by
  refine ⟨?_, ?_, ?_, ?_, ?_⟩
  · exact fun m s2 h => registryEq_of_eq (create_kitty_err_state h)
  · exact fun m s2 h => registryEq_of_eq (set_price_err_state h)
  · exact fun m s2 h => registryEq_of_eq (transfer_err_state h)
  · exact fun m s2 h => buy_kitty_err_registry h
  · exact fun m s2 h => registryEq_of_eq (breed_kitty_err_state h)

/-- Witness for C2: a concrete failed `set_price` (wrong owner) leaves
the storage of the one-kitty state untouched. -/
theorem failed_operations_preserve_storage_witness :
    set_price s0 1 t0 5 =
      RunResult.err "Error: you have no ownership to this kitty" s0 ∧
    registryEq s0 (set_price s0 1 t0 5).state :=
  ⟨rfl, (failed_operations_preserve_storage s0 1 0 t0 t0 t0 t0 5 5).2.1
    "Error: you have no ownership to this kitty" s0 rfl⟩

/-! ## Success-path normal forms -/

/-- The state produced by a successful `_transfer_from`, with the
swap-and-pop writes spelled out (field-wise collapse of the write
sequence of lines 336-360). -/
def postTransfer (s : State) (frm dst : AccountId) (kid : KHash) : State :=
  let ncf := s.ownedKittiesCount frm - 1
  let ct := s.ownedKittiesCount dst
  let ki := s.ownedKittiesIndex kid
  let s1 :=
    if ki ≠ ncf then
      let last := (s.ownedKittiesArray (frm, ncf)).getD defaultKHash
      { s with
        ownedKittiesArray := mupd s.ownedKittiesArray (frm, ki) (some last)
        ownedKittiesIndex := mupd s.ownedKittiesIndex last ki }
    else s
  { s1 with
    kittyOwner := mupd s1.kittyOwner kid (some dst)
    ownedKittiesIndex := mupd s1.ownedKittiesIndex kid ct
    ownedKittiesArray :=
      mupd (mupd s1.ownedKittiesArray (frm, ncf) none) (dst, ct) (some kid)
    ownedKittiesCount :=
      mupd (mupd s1.ownedKittiesCount frm ncf) dst (ct + 1) }

/-- `_transfer_from` succeeds exactly under its three checks, and the
result is `postTransfer`. -/
theorem transfer_from_ok {s : State} {frm dst : AccountId} {kid : KHash}
    (ho : s.kittyOwner kid = some frm)
    (hcf : 1 ≤ s.ownedKittiesCount frm)
    (hct : s.ownedKittiesCount dst + 1 ≤ u64max) :
    transfer_from s frm dst kid = RunResult.ok (postTransfer s frm dst kid) := by
  simp only [transfer_from, ho, checkedAdd, checkedSub, if_pos hct, if_pos hcf,
    postTransfer]
  simp

theorem postTransfer_kitties (s : State) (frm dst : AccountId) (kid : KHash) :
    (postTransfer s frm dst kid).kitties = s.kitties := by
  simp only [postTransfer]
  split <;> rfl

theorem postTransfer_balances (s : State) (frm dst : AccountId) (kid : KHash) :
    (postTransfer s frm dst kid).balances = s.balances := by
  simp only [postTransfer]
  split <;> rfl

theorem postTransfer_nonce (s : State) (frm dst : AccountId) (kid : KHash) :
    (postTransfer s frm dst kid).nonce = s.nonce := by
  simp only [postTransfer]
  split <;> rfl

theorem postTransfer_kittyOwner (s : State) (frm dst : AccountId) (kid : KHash) :
    (postTransfer s frm dst kid).kittyOwner = mupd s.kittyOwner kid (some dst) := by
  simp only [postTransfer]
  split <;> rfl

theorem postTransfer_count (s : State) (frm dst : AccountId) (kid : KHash) :
    (postTransfer s frm dst kid).ownedKittiesCount =
      mupd (mupd s.ownedKittiesCount frm (s.ownedKittiesCount frm - 1)) dst
        (s.ownedKittiesCount dst + 1) := by
  simp only [postTransfer]
  split <;> rfl

/-- The state produced by a successful `_mint`: the eight writes of
lines 276-301. -/
def postMint (s : State) (dst : AccountId) (kid : KHash) (k : Kitty) : State :=
  { s with
    kitties := mupd s.kitties kid (some k)
    kittyOwner := mupd s.kittyOwner kid (some dst)
    allKittiesArray := mupd s.allKittiesArray s.allKittiesCount (some kid)
    allKittiesCount := s.allKittiesCount + 1
    allKittiesIndex := mupd s.allKittiesIndex kid s.allKittiesCount
    ownedKittiesArray :=
      mupd s.ownedKittiesArray (dst, s.ownedKittiesCount dst) (some kid)
    ownedKittiesCount :=
      mupd s.ownedKittiesCount dst (s.ownedKittiesCount dst + 1)
    ownedKittiesIndex := mupd s.ownedKittiesIndex kid (s.ownedKittiesCount dst) }

/-- `_mint` succeeds exactly under its three checks, and the result is
`postMint`. -/
theorem mint_ok {s : State} {dst : AccountId} {kid : KHash} {k : Kitty}
    (hfresh : s.kittyOwner kid = none)
    (hc1 : s.ownedKittiesCount dst + 1 ≤ u64max)
    (hc2 : s.allKittiesCount + 1 ≤ u64max) :
    mint s dst kid k = RunResult.ok (postMint s dst kid k) := by
  simp only [mint, hfresh, checkedAdd, if_pos hc1, if_pos hc2, postMint]
  simp

/-! ## C8: set_price -/

/-- Claim C8: `set_price` fails with the not-found error when the token
does not exist, fails with the not-owner error when the caller is not
the owner, and on success overwrites only the price field of the one
token, leaving its id, dna and generation and every other storage item
unchanged. -/
theorem set_price_spec (s : State) (sender o : AccountId) (kid : KHash)
    (p : Balance) (k : Kitty) :
    (s.kitties kid = none →
      set_price s sender kid p =
        RunResult.err "Error: invalid kitty id: this kitty does not exist" s) ∧
    (s.kitties kid = some k → s.kittyOwner kid = some o → o ≠ sender →
      set_price s sender kid p =
        RunResult.err "Error: you have no ownership to this kitty" s) ∧
    (s.kitties kid = some k → s.kittyOwner kid = some sender →
      (set_price s sender kid p).isOk = true ∧
      (set_price s sender kid p).state.kitties kid =
        some { id := k.id, dna := k.dna, price := p, gen := k.gen } ∧
      (∀ h2, h2 ≠ kid →
        (set_price s sender kid p).state.kitties h2 = s.kitties h2) ∧
      (set_price s sender kid p).state.kittyOwner = s.kittyOwner ∧
      (set_price s sender kid p).state.allKittiesArray = s.allKittiesArray ∧
      (set_price s sender kid p).state.allKittiesCount = s.allKittiesCount ∧
      (set_price s sender kid p).state.allKittiesIndex = s.allKittiesIndex ∧
      (set_price s sender kid p).state.ownedKittiesArray = s.ownedKittiesArray ∧
      (set_price s sender kid p).state.ownedKittiesCount = s.ownedKittiesCount ∧
      (set_price s sender kid p).state.ownedKittiesIndex = s.ownedKittiesIndex ∧
      (set_price s sender kid p).state.nonce = s.nonce) := by
  refine ⟨?_, ?_, ?_⟩
  · intro h
    simp [set_price, h]
  · intro hk ho hne
    simp [set_price, hk, ho, hne]
  · intro hk ho
    refine ⟨?_, ?_, ?_, ?_, ?_, ?_, ?_, ?_, ?_, ?_, ?_⟩
    all_goals
      simp [set_price, hk, ho, RunResult.isOk, RunResult.state, mupd]
    intro h2 hne2
    simp [hne2]

/-- Witness for C8: setting the price of `t0` by its owner in the
one-kitty state succeeds and stores price `5`. -/
theorem set_price_spec_witness :
    (set_price s0 0 t0 5).isOk = true ∧
    (set_price s0 0 t0 5).state.kitties t0 =
      some { id := k0.id, dna := k0.dna, price := 5, gen := k0.gen } :=
  ⟨((set_price_spec s0 0 0 t0 5 k0).2.2 rfl rfl).1,
    ((set_price_spec s0 0 0 t0 5 k0).2.2 rfl rfl).2.1⟩

/-! ## C7: transfer round trip -/

/-- `transfer` reduces to `_transfer_from` once the caller owns the
token. -/
theorem transfer_ok {s : State} {frm dst : AccountId} {kid : KHash}
    (ho : s.kittyOwner kid = some frm)
    (hcf : 1 ≤ s.ownedKittiesCount frm)
    (hct : s.ownedKittiesCount dst + 1 ≤ u64max) :
    transfer s frm dst kid = RunResult.ok (postTransfer s frm dst kid) := by
  simp only [transfer, ho]
  simp [transfer_from_ok ho hcf hct]

/-- Claim C7: transferring a token from `a` to a distinct `b` and then
back restores the owner, both per-owner counts, and the whole `Kitties`
mapping (so existence, price, dna and generation of every token are
untouched). -/
theorem transfer_round_trip (s : State) (a b : AccountId) (t : KHash)
    (ho : s.kittyOwner t = some a) (hab : a ≠ b)
    (hcf : 1 ≤ s.ownedKittiesCount a)
    (hct : s.ownedKittiesCount b + 1 ≤ u64max)
    (hca : s.ownedKittiesCount a ≤ u64max) :
    (transfer s a b t).isOk = true ∧
    (transfer (transfer s a b t).state b a t).isOk = true ∧
    (transfer (transfer s a b t).state b a t).state.kittyOwner t = some a ∧
    (transfer (transfer s a b t).state b a t).state.ownedKittiesCount a =
      s.ownedKittiesCount a ∧
    (transfer (transfer s a b t).state b a t).state.ownedKittiesCount b =
      s.ownedKittiesCount b ∧
    (transfer (transfer s a b t).state b a t).state.kitties = s.kitties := by
  have h1 : transfer s a b t = RunResult.ok (postTransfer s a b t) :=
    transfer_ok ho hcf hct
  have hS1owner : (postTransfer s a b t).kittyOwner t = some b := by
    rw [postTransfer_kittyOwner]; simp [mupd]
  have hS1cnta : (postTransfer s a b t).ownedKittiesCount a =
      s.ownedKittiesCount a - 1 := by
    rw [postTransfer_count]; simp [mupd, hab]
  have hS1cntb : (postTransfer s a b t).ownedKittiesCount b =
      s.ownedKittiesCount b + 1 := by
    rw [postTransfer_count]; simp [mupd]
  have h2 : transfer (postTransfer s a b t) b a t =
      RunResult.ok (postTransfer (postTransfer s a b t) b a t) := by
    refine transfer_ok hS1owner ?_ ?_
    · rw [hS1cntb]; omega
    · rw [hS1cnta]; omega
  refine ⟨?_, ?_, ?_, ?_, ?_, ?_⟩
  · rw [h1]; rfl
  · rw [h1]; simp only [RunResult.state]; rw [h2]; rfl
  · rw [h1]; simp only [RunResult.state]; rw [h2]
    simp only [RunResult.state, postTransfer_kittyOwner]
    simp [mupd]
  · rw [h1]; simp only [RunResult.state]; rw [h2]
    simp only [RunResult.state, postTransfer_count]
    simp [mupd, hab, Ne.symm hab]
    omega
  · rw [h1]; simp only [RunResult.state]; rw [h2]
    simp only [RunResult.state, postTransfer_count]
    simp [mupd, hab, Ne.symm hab]
  · rw [h1]; simp only [RunResult.state]; rw [h2]
    simp only [RunResult.state, postTransfer_kitties]

/-- Witness for C7: the round trip `0 → 1 → 0` of `t0` in the one-kitty
state restores owner and counts. -/
theorem transfer_round_trip_witness :
    (transfer (transfer s0 0 1 t0).state 1 0 t0).state.kittyOwner t0 =
      some 0 ∧
    (transfer (transfer s0 0 1 t0).state 1 0 t0).state.ownedKittiesCount 0 =
      s0.ownedKittiesCount 0 :=
  ⟨(transfer_round_trip s0 0 1 t0 rfl (by decide) (by decide) (by decide)
      (by decide)).2.2.1,
    (transfer_round_trip s0 0 1 t0 rfl (by decide) (by decide) (by decide)
      (by decide)).2.2.2.1⟩

/-! ## C4 and C5: buy_kitty -/

/-- The ledger after a successful currency transfer (spec §6: move
`amount` from payer to payee). -/
def postPay (s : State) (payer payee : AccountId) (amount : Balance) : State :=
  { s with
    balances := fun a =>
      if a = payer then s.balances payer - amount
      else if a = payee then s.balances payee + amount
      else s.balances a }

/-- A sufficiently funded payer makes the modelled currency transfer
succeed with the `postPay` ledger. -/
theorem make_transfer_ok_state {s : State} {payer payee : AccountId}
    {amount : Balance} (h : ¬ s.balances payer < amount) :
    make_transfer s payer payee amount =
      RunResult.ok (postPay s payer payee amount) := by
  simp [make_transfer, postPay, h]

/-- Claim C4: `buy_kitty` fails with the not-found error when the token
does not exist, with the self-purchase error when the caller already
owns it, with the not-for-sale error when its price is `0`, and with the
price-exceeded error when its price exceeds `max_price`; otherwise (with
the payment funded and the registry counters in range) it moves `price`
units from the caller to the old owner, makes the caller the owner, and
resets the price to `0`. -/
theorem buy_kitty_spec (s : State) (sender o : AccountId) (kid : KHash)
    (mx : Balance) (k : Kitty) :
    (s.kitties kid = none →
      buy_kitty s sender kid mx =
        RunResult.err "Error: invalid kitty id: this kitty does not exist" s) ∧
    (s.kitties kid = some k → s.kittyOwner kid = some sender →
      buy_kitty s sender kid mx =
        RunResult.err "Error: you can not buy your own kitty" s) ∧
    (s.kitties kid = some k → s.kittyOwner kid = some o → o ≠ sender →
      k.price = 0 →
      buy_kitty s sender kid mx =
        RunResult.err "Error: this kitty you want to buy is not for sale" s) ∧
    (s.kitties kid = some k → s.kittyOwner kid = some o → o ≠ sender →
      k.price ≠ 0 → ¬ k.price ≤ mx →
      buy_kitty s sender kid mx =
        RunResult.err
          "Error: this kitty you want to buy costs more than your max price" s) ∧
    (s.kitties kid = some k → s.kittyOwner kid = some o → o ≠ sender →
      k.price ≠ 0 → k.price ≤ mx → ¬ s.balances sender < k.price →
      1 ≤ s.ownedKittiesCount o → s.ownedKittiesCount sender + 1 ≤ u64max →
      (buy_kitty s sender kid mx).isOk = true ∧
      (buy_kitty s sender kid mx).state.kittyOwner kid = some sender ∧
      (buy_kitty s sender kid mx).state.kitties kid =
        some { id := k.id, dna := k.dna, price := 0, gen := k.gen } ∧
      (buy_kitty s sender kid mx).state.balances sender =
        s.balances sender - k.price ∧
      (buy_kitty s sender kid mx).state.balances o =
        s.balances o + k.price) := by
  refine ⟨?_, ?_, ?_, ?_, ?_⟩
  · intro h
    simp [buy_kitty, h]
  · intro hk ho
    simp [buy_kitty, hk, ho]
  · intro hk ho hno hp
    simp [buy_kitty, hk, ho, hno, hp]
  · intro hk ho hno hp hgt
    simp [buy_kitty, hk, ho, hno, hp, hgt]
  · intro hk ho hno hp hle hfunds hcf hct
    have hmt : make_transfer s sender o k.price =
        RunResult.ok (postPay s sender o k.price) := make_transfer_ok_state hfunds
    have hco : (postPay s sender o k.price).kittyOwner kid = some o := ho
    have htf : transfer_from (postPay s sender o k.price) o sender kid =
        RunResult.ok (postTransfer (postPay s sender o k.price) o sender kid) :=
      transfer_from_ok hco hcf hct
    have hrun : buy_kitty s sender kid mx =
        RunResult.ok
          { postTransfer (postPay s sender o k.price) o sender kid with
            kitties :=
              mupd (postTransfer (postPay s sender o k.price) o sender kid).kitties
                kid (some { id := k.id, dna := k.dna, price := 0, gen := k.gen }) } := by
      simp [buy_kitty, hk, ho, hno, hp, hle, hmt, htf]
    refine ⟨?_, ?_, ?_, ?_, ?_⟩ <;> rw [hrun] <;>
      simp [RunResult.isOk, RunResult.state, postTransfer_kittyOwner,
        postTransfer_balances, postTransfer_kitties, mupd, postPay, hno,
        Ne.symm hno]

/-- Claim C5: when the currency collaborator rejects the payment (here:
the payer cannot cover the price), `buy_kitty` aborts with its error and
none of the ownership-registry mappings (KittyOwner, OwnedKittiesArray,
OwnedKittiesIndex, OwnedKittiesCount) is mutated: a failed payment never
transfers ownership. -/
theorem buy_kitty_failed_payment (s : State) (sender o : AccountId)
    (kid : KHash) (mx : Balance) (k : Kitty)
    (hk : s.kitties kid = some k) (ho : s.kittyOwner kid = some o)
    (hno : o ≠ sender) (hp : k.price ≠ 0) (hle : k.price ≤ mx)
    (hfunds : s.balances sender < k.price) :
    buy_kitty s sender kid mx =
      RunResult.err "Error: insufficient funds" s ∧
    (buy_kitty s sender kid mx).state.kittyOwner = s.kittyOwner ∧
    (buy_kitty s sender kid mx).state.ownedKittiesArray =
      s.ownedKittiesArray ∧
    (buy_kitty s sender kid mx).state.ownedKittiesIndex =
      s.ownedKittiesIndex ∧
    (buy_kitty s sender kid mx).state.ownedKittiesCount =
      s.ownedKittiesCount := by
  have h : buy_kitty s sender kid mx =
      RunResult.err "Error: insufficient funds" s := by
    simp [buy_kitty, hk, ho, hno, hp, hle, make_transfer, hfunds]
  refine ⟨h, ?_, ?_, ?_, ?_⟩ <;> rw [h] <;> rfl

/-- A concrete market state: account `1` owns the kitty `tm`, for sale
at price `100`; account `0` holds `1000` units, account `2` holds none. -/
def tm : KHash := [2]

/-- The for-sale kitty of `sMarket`. -/
def km : Kitty := { id := [2], dna := [2], price := 100, gen := 0 }

/-- The market state itself. -/
def sMarket : State where
  kitties := fun h => if h = tm then some km else none
  kittyOwner := fun h => if h = tm then some 1 else none
  allKittiesArray := fun i => if i = 0 then some tm else none
  allKittiesCount := 1
  allKittiesIndex := fun _ => 0
  ownedKittiesArray := fun p => if p = (1, 0) then some tm else none
  ownedKittiesCount := fun a => if a = 1 then 1 else 0
  ownedKittiesIndex := fun _ => 0
  nonce := 0
  balances := fun a => if a = 0 then 1000 else if a = 1 then 50 else 0

/-- Witness for C4: account `0` buys `tm` from account `1` for `100`
(max price `150`): ownership moves, the price resets, and the ledger
moves `100` units. -/
theorem buy_kitty_spec_witness :
    (buy_kitty sMarket 0 tm 150).isOk = true ∧
    (buy_kitty sMarket 0 tm 150).state.kittyOwner tm = some 0 ∧
    (buy_kitty sMarket 0 tm 150).state.kitties tm =
      some { id := km.id, dna := km.dna, price := 0, gen := km.gen } ∧
    (buy_kitty sMarket 0 tm 150).state.balances 0 =
      sMarket.balances 0 - km.price ∧
    (buy_kitty sMarket 0 tm 150).state.balances 1 =
      sMarket.balances 1 + km.price :=
  (buy_kitty_spec sMarket 0 1 tm 150 km).2.2.2.2 rfl rfl
    (by decide) (by decide) (by decide) (by decide) (by decide) (by decide)

/-- Witness for C5: account `2` holds no funds, so its attempted
purchase of `tm` fails at the payment step and mutates nothing. -/
theorem buy_kitty_failed_payment_witness :
    buy_kitty sMarket 2 tm 150 =
      RunResult.err "Error: insufficient funds" sMarket ∧
    (buy_kitty sMarket 2 tm 150).state.kittyOwner = sMarket.kittyOwner :=
  ⟨(buy_kitty_failed_payment sMarket 2 1 tm 150 km rfl rfl
      (by decide) (by decide) (by decide) (by decide)).1,
    (buy_kitty_failed_payment sMarket 2 1 tm 150 km rfl rfl
      (by decide) (by decide) (by decide) (by decide)).2.1⟩

/-! ## C6, C9, C10: breed_kitty -/

/-- Mixing a DNA with itself returns it unchanged: each position picks
the same byte from either parent. -/
theorem mixDna_self (d r : List Nat) : mixDna d d r = d := by
  induction d generalizing r with
  | nil => cases r <;> rfl
  | cons b t ih =>
    cases r with
    | nil => rfl
    | cons rb rt => simp [mixDna, ih]

/-- Byte-level reading of the DNA-mixing loop: position `i` holds the
second parent byte when the random byte at `i` is even, and the first
parent byte otherwise. -/
theorem mixDna_getD (d1 d2 r : List Nat) (h1 : d1.length = d2.length)
    (h2 : d2.length = r.length) (i : Nat) (hi : i < d1.length) :
    (mixDna d1 d2 r).getD i 0 =
      if r.getD i 0 % 2 = 0 then d2.getD i 0 else d1.getD i 0 := by
  induction d1 generalizing d2 r i with
  | nil => simp at hi
  | cons b1 t1 ih =>
    cases d2 with
    | nil => simp at h1
    | cons b2 t2 =>
      cases r with
      | nil => simp at h2
      | cons rb rt =>
        cases i with
        | zero => simp [mixDna]
        | succ n =>
          simp only [mixDna, List.getD_cons_succ]
          exact ih t2 rt (by simpa using h1) (by simpa using h2) n
            (by simpa using hi)

/-- `breed_kitty` succeeds once both parents exist and the `_mint`
checks pass, minting the mixed child and bumping the nonce. -/
theorem breed_kitty_ok {s : State} {sender : AccountId} {id1 id2 rh : KHash}
    {k1 k2 : Kitty} (hk1 : s.kitties id1 = some k1)
    (hk2 : s.kitties id2 = some k2) (hfresh : s.kittyOwner rh = none)
    (hc1 : s.ownedKittiesCount sender + 1 ≤ u64max)
    (hc2 : s.allKittiesCount + 1 ≤ u64max) :
    breed_kitty s sender id1 id2 rh =
      RunResult.ok
        { postMint s sender rh
            { id := rh, dna := mixDna k1.dna k2.dna rh, price := 0,
              gen := wrap64 (max k1.gen k2.gen + 1) } with
          nonce := wrap64 (s.nonce + 1) } := by
  simp [breed_kitty, hk1, hk2, mint_ok hfresh hc1 hc2, postMint]

/-- Claim C9: the child-generation computation of `breed_kitty` is an
unchecked `u64` addition: with two existing parents of maximal
generation `2^64 - 1` (and the mint checks passing), breeding still
succeeds and the child generation wraps to `0` instead of failing with
an overflow error. -/
theorem breed_generation_wraps (s : State) (sender : AccountId)
    (id1 id2 rh : KHash) (k1 k2 : Kitty)
    (hk1 : s.kitties id1 = some k1) (hk2 : s.kitties id2 = some k2)
    (hg : max k1.gen k2.gen = u64max)
    (hfresh : s.kittyOwner rh = none)
    (hc1 : s.ownedKittiesCount sender + 1 ≤ u64max)
    (hc2 : s.allKittiesCount + 1 ≤ u64max) :
    (breed_kitty s sender id1 id2 rh).isOk = true ∧
    (((breed_kitty s sender id1 id2 rh).state.kitties rh).getD
      defaultKitty).gen = 0 := by
  have h := breed_kitty_ok hk1 hk2 hfresh hc1 hc2
  refine ⟨by rw [h]; rfl, ?_⟩
  rw [h]
  simp only [RunResult.state, postMint, mupd]
  rw [hg]
  simp [wrap64, u64max]

/-- Two concrete parents with generations `2^64 - 1` and `0`. -/
def tA : KHash := [3]

/-- Second parent identifier. -/
def tB : KHash := [4]

/-- The maximal-generation parent. -/
def kA : Kitty := { id := [3], dna := [3], price := 0, gen := 2 ^ 64 - 1 }

/-- The generation-zero parent. -/
def kB : Kitty := { id := [4], dna := [4], price := 0, gen := 0 }

/-- A state holding both parents, owned by account `0`. -/
def sBig : State where
  kitties := fun h => if h = tA then some kA else if h = tB then some kB else none
  kittyOwner := fun h => if h = tA then some 0 else if h = tB then some 0 else none
  allKittiesArray := fun i => if i = 0 then some tA else if i = 1 then some tB else none
  allKittiesCount := 2
  allKittiesIndex := fun h => if h = tB then 1 else 0
  ownedKittiesArray := fun p =>
    if p = (0, 0) then some tA else if p = (0, 1) then some tB else none
  ownedKittiesCount := fun a => if a = 0 then 2 else 0
  ownedKittiesIndex := fun h => if h = tB then 1 else 0
  nonce := 2
  balances := fun _ => 0

/-- Witness for C9: breeding the two concrete parents wraps the child
generation to `0`. -/
theorem breed_generation_wraps_witness :
    (breed_kitty sBig 0 tA tB [9]).isOk = true ∧
    (((breed_kitty sBig 0 tA tB [9]).state.kitties [9]).getD
      defaultKitty).gen = 0 :=
  breed_generation_wraps sBig 0 tA tB [9] kA kB rfl rfl rfl rfl
    (by decide) (by decide)

/-- Claim C6 counterexample: breeding the maximal-generation parent
with the generation-zero parent succeeds, but the child generation is
`0` — not `max(parent generations) + 1 = 2^64` as the claim states,
because the addition wraps modulo `2^64`. -/
theorem breed_generation_not_exact :
    (breed_kitty sBig 0 tA tB [5]).isOk = true ∧
    (((breed_kitty sBig 0 tA tB [5]).state.kitties [5]).getD
        defaultKitty).gen ≠ max kA.gen kB.gen + 1 :=
  ⟨rfl, (by decide : (0 : Nat) ≠ 2 ^ 64)⟩

/-- Claim C6 (amended): with both parents existing, a fresh identifier
and the counters in range, `breed_kitty` succeeds; the child is owned by
the caller — with no requirement that the caller own either parent —
and has price `0`, generation `(max(parent generations) + 1) mod 2^64`,
and at every position `i` the child DNA byte is the second parent byte
when the random byte at `i` is even and the first parent byte
otherwise. -/
theorem breed_kitty_spec (s : State) (sender : AccountId)
    (id1 id2 rh : KHash) (k1 k2 : Kitty)
    (hk1 : s.kitties id1 = some k1) (hk2 : s.kitties id2 = some k2)
    (hfresh : s.kittyOwner rh = none)
    (hc1 : s.ownedKittiesCount sender + 1 ≤ u64max)
    (hc2 : s.allKittiesCount + 1 ≤ u64max)
    (hl1 : k1.dna.length = k2.dna.length)
    (hl2 : k2.dna.length = rh.length) :
    (breed_kitty s sender id1 id2 rh).isOk = true ∧
    (breed_kitty s sender id1 id2 rh).state.kittyOwner rh = some sender ∧
    (breed_kitty s sender id1 id2 rh).state.kitties rh =
      some { id := rh, dna := mixDna k1.dna k2.dna rh, price := 0,
             gen := wrap64 (max k1.gen k2.gen + 1) } ∧
    ∀ i, i < k1.dna.length →
      (mixDna k1.dna k2.dna rh).getD i 0 =
        if rh.getD i 0 % 2 = 0 then k2.dna.getD i 0 else k1.dna.getD i 0 := by
  have h := breed_kitty_ok hk1 hk2 hfresh hc1 hc2
  refine ⟨by rw [h]; rfl, ?_, ?_,
    fun i hi => mixDna_getD k1.dna k2.dna rh hl1 hl2 i hi⟩
  · rw [h]
    simp [RunResult.state, postMint, mupd]
  · rw [h]
    simp [RunResult.state, postMint, mupd]

/-- Witness for the amended C6: the concrete breed of the two parents
above succeeds and stores the mixed child. -/
theorem breed_kitty_spec_witness :
    (breed_kitty sBig 0 tA tB [9]).isOk = true ∧
    (breed_kitty sBig 0 tA tB [9]).state.kittyOwner [9] = some 0 :=
  ⟨(breed_kitty_spec sBig 0 tA tB [9] kA kB rfl rfl rfl
      (by decide) (by decide) rfl rfl).1,
    (breed_kitty_spec sBig 0 tA tB [9] kA kB rfl rfl rfl
      (by decide) (by decide) rfl rfl).2.1⟩

/-- Claim C10 counterexample: self-breeding the maximal-generation
parent succeeds and copies its DNA exactly, but the child generation is
`0`, not `t.generation + 1 = 2^64`: the unchecked addition wraps. -/
theorem self_breed_generation_not_exact :
    (breed_kitty sBig 0 tA tA [6]).isOk = true ∧
    (((breed_kitty sBig 0 tA tA [6]).state.kitties [6]).getD
        defaultKitty).dna = kA.dna ∧
    (((breed_kitty sBig 0 tA tA [6]).state.kitties [6]).getD
        defaultKitty).gen ≠ kA.gen + 1 :=
  ⟨rfl, rfl, (by decide : (0 : Nat) ≠ 2 ^ 64)⟩

/-- Claim C10 (amended): self-breeding is permitted: for an existing
token `t`, a fresh identifier and counters in range,
`breed_kitty(caller, t, t)` succeeds, the child DNA equals the DNA of
`t` exactly, the child generation is `(t.generation + 1) mod 2^64`, and
the child belongs to the caller. -/
theorem self_breed_spec (s : State) (sender : AccountId) (t rh : KHash)
    (k : Kitty) (hk : s.kitties t = some k)
    (hfresh : s.kittyOwner rh = none)
    (hc1 : s.ownedKittiesCount sender + 1 ≤ u64max)
    (hc2 : s.allKittiesCount + 1 ≤ u64max) :
    (breed_kitty s sender t t rh).isOk = true ∧
    (breed_kitty s sender t t rh).state.kitties rh =
      some { id := rh, dna := k.dna, price := 0,
             gen := wrap64 (k.gen + 1) } ∧
    (breed_kitty s sender t t rh).state.kittyOwner rh = some sender := by
  have h := breed_kitty_ok hk hk hfresh hc1 hc2
  refine ⟨by rw [h]; rfl, ?_, ?_⟩
  · rw [h]
    simp [RunResult.state, postMint, mupd, mixDna_self]
  · rw [h]
    simp [RunResult.state, postMint, mupd]

/-- Witness for the amended C10: self-breeding `t0` in the one-kitty
state yields a generation-1 child with the same DNA, owned by the
caller. -/
theorem self_breed_spec_witness :
    (breed_kitty s0 0 t0 t0 [7]).isOk = true ∧
    (breed_kitty s0 0 t0 t0 [7]).state.kitties [7] =
      some { id := [7], dna := k0.dna, price := 0,
             gen := wrap64 (k0.gen + 1) } :=
  ⟨(self_breed_spec s0 0 t0 [7] k0 rfl rfl (by decide) (by decide)).1,
    (self_breed_spec s0 0 t0 [7] k0 rfl rfl (by decide) (by decide)).2.1⟩
